import Mathlib

/-!
Verification of the `/api/calculate` handler of the GitHub Actions demo
Flask application (`src/app.py`).

The handler receives a decoded JSON request body (Python value produced by
`request.get_json()`), validates it, performs one of three reductions
(`sum`, `product`, `average`) and returns a JSON response together with an
HTTP status code.  We embed the decoded JSON values, the Python dynamic
operations the handler uses (`not data`, `'numbers' not in data`,
`data['numbers']`, `data.get(...)`, `isinstance` checks, `==` against a
string literal) and the handler control flow itself.

Modelling conventions, faithful to CPython semantics:
* Python `bool` is a subclass of `int`, so `isinstance(True, (int, float))`
  is `True` and `True`/`False` behave as `1`/`0` in arithmetic.
* Python floats are carried as exact rationals (`Rat`); the claims under
  scrutiny concern which branch is taken and the int/float kind of the
  result, not IEEE-754 rounding.
* A raised exception (`TypeError` from `in` on a non-container,
  `TypeError` from subscripting a non-dict, `KeyError`, ...) is modelled as
  `Option.none` propagating to the handler's `except` clause, which
  produces the generic 500 response — exactly the `try/except` in the
  source.
* An absent request body decodes to Python `None`, i.e. `Json.null`.
-/

namespace CalcApp

/-- Decoded JSON values as Python objects (`None`, `bool`, `int`, `float`,
`str`, `list`, `dict`). -/
inductive Json where
  | null
  | bool (b : Bool)
  | int (n : Int)
  | float (q : Rat)
  | str (s : String)
  | arr (elems : List Json)
  | obj (fields : List (String × Json))

/-- A Python number: either an `int` or a `float`.  Floats carry their
exact rational value. -/
inductive PyNum where
  | int (n : Int)
  | float (q : Rat)
  deriving Repr, DecidableEq

/-- The rational value of a Python number. -/
def PyNum.toRat : PyNum → Rat
  | .int n => (n : Rat)
  | .float q => q

/-- Python truthiness of a decoded JSON value (`bool(data)`). -/
def truthy : Json → Bool
  | .null => false
  | .bool b => b
  | .int n => n != 0
  | .float q => q != 0
  | .str s => s != ""
  | .arr xs => !xs.isEmpty
  | .obj kvs => !kvs.isEmpty

/-- Python substring test `needle in hay` on character lists: `needle` is
a contiguous run of `hay` (the empty needle is contained everywhere). -/
def containsSub (needle : List Char) : List Char → Bool
  | [] => needle.isEmpty
  | c :: rest => needle.isPrefixOf (c :: rest) || containsSub needle rest

/-- Python `x == 'lit'`: `==` between a decoded JSON value and a string
literal is `True` exactly when the value is that string (comparisons
across types are `False`, never an error). -/
def pyEqStr (j : Json) (lit : String) : Bool :=
  match j with
  | .str t => t == lit
  | _ => false

/-- Python `key in data` for a string key: key lookup on a dict, element
equality (`==` against the key) on a list, substring test on a string;
`TypeError` (modelled as `none`) on numbers, booleans and `None`. -/
def pyContains (data : Json) (key : String) : Option Bool :=
  match data with
  | .obj kvs => some (List.lookup key kvs).isSome
  | .arr xs => some (xs.any fun x => pyEqStr x key)
  | .str s => some (containsSub key.toList s.toList)
  | _ => none

/-- Python `data[key]` for a string key: dict lookup (`KeyError` when the
key is absent), `TypeError` (modelled as `none`) on anything else. -/
def pySubscript (data : Json) (key : String) : Option Json :=
  match data with
  | .obj kvs => List.lookup key kvs
  | _ => none

/-- Python `data.get(key, default)`: only dicts have `.get`
(`AttributeError`, modelled as `none`, otherwise); returns the stored
value — even a stored `None` — and the default only when the key is
absent. -/
def pyGet (data : Json) (key : String) (default : Json) : Option Json :=
  match data with
  | .obj kvs => some ((List.lookup key kvs).getD default)
  | _ => none

/-- Python `isinstance(x, (int, float))`.  `bool` is a subclass of `int`,
so booleans pass this check. -/
def isNumber : Json → Bool
  | .int _ => true
  | .float _ => true
  | .bool _ => true
  | _ => false

/-- The Python number denoted by a JSON element in arithmetic
(`True` counts as `1`, `False` as `0`); `none` for non-numeric values. -/
def asNum : Json → Option PyNum
  | .int n => some (.int n)
  | .float q => some (.float q)
  | .bool b => some (.int (if b then 1 else 0))
  | _ => none

/-- Python `+` on numbers: `int + int` is an `int`; any `float` operand
promotes the result to `float`. -/
def pyNumAdd : PyNum → PyNum → PyNum
  | .int a, .int b => .int (a + b)
  | a, b => .float (a.toRat + b.toRat)

/-- Python `*` on numbers: `int * int` is an `int`; any `float` operand
promotes the result to `float`. -/
def pyNumMul : PyNum → PyNum → PyNum
  | .int a, .int b => .int (a * b)
  | a, b => .float (a.toRat * b.toRat)

/-- Left fold of Python `+` over a list of JSON elements starting from an
accumulator; `none` if some element is not numeric (Python `sum` would
raise `TypeError`). -/
def sumFrom : PyNum → List Json → Option PyNum
  | acc, [] => some acc
  | acc, x :: xs =>
    match asNum x with
    | some n => sumFrom (pyNumAdd acc n) xs
    | none => none

/-- Python `sum(numbers)`: fold of `+` starting from the integer `0`. -/
def pySum (xs : List Json) : Option PyNum :=
  sumFrom (.int 0) xs

/-- The running-product loop of the handler: accumulator starting value,
multiplied by each element in order. -/
def prodFrom : PyNum → List Json → Option PyNum
  | acc, [] => some acc
  | acc, x :: xs =>
    match asNum x with
    | some n => prodFrom (pyNumMul acc n) xs
    | none => none

/-- The handler's product: `result['result'] = 1` then `*=` each element
in input order. -/
def pyProd (xs : List Json) : Option PyNum :=
  prodFrom (.int 1) xs

/-- The JSON value serialised for a computed Python number. -/
def numToJson : PyNum → Json
  | .int n => .int n
  | .float q => .float q

/-- Abstract outcome of one run of the handler body: either a successful
calculation (the echoed `numbers`, the resolved `operation` and the
computed `result`) or an error response (status code and message). -/
inductive Outcome where
  | success (numbers operation : Json) (result : PyNum)
  | failure (status : Nat) (msg : String)

/-- An HTTP response: status code plus JSON body (`jsonify(...)`). -/
structure Resp where
  status : Nat
  body : Json

/-- The body `jsonify({'error': msg})` of an error response. -/
def errBody (msg : String) : Json :=
  .obj [("error", .str msg)]

/-- The body of a success response: the `result` dict built by the
handler, `{'numbers': ..., 'operation': ..., 'result': ...}`. -/
def okBody (numbers operation : Json) (result : PyNum) : Json :=
  .obj [("numbers", numbers), ("operation", operation), ("result", numToJson result)]

/-- Lines 49–72 of `app.py`: the shape/element checks on `numbers` and the
dispatch on `operation`.  `numbers` must be a `list` and non-empty, every
element must satisfy `isinstance(num, (int, float))`, and then one of the
three reductions runs; an unrecognised `operation` yields the 400
"Unsupported operation" error.  A `none` from a reduction (impossible
after validation, but kept for fidelity to `try/except`) is the generic
500. -/
def checkAndCompute (numbers operation : Json) : Outcome :=
  match numbers with
  | .arr xs =>
    if xs.isEmpty then .failure 400 "Numbers must be a non-empty array"
    else if !xs.all isNumber then .failure 400 "All elements must be numbers"
    else if pyEqStr operation "sum" then
      match pySum xs with
      | some s => .success numbers operation s
      | none => .failure 500 "Internal server error"
    else if pyEqStr operation "product" then
      match pyProd xs with
      | some p => .success numbers operation p
      | none => .failure 500 "Internal server error"
    else if pyEqStr operation "average" then
      match pySum xs with
      | some s => .success numbers operation (.float (s.toRat / (xs.length : Rat)))
      | none => .failure 500 "Internal server error"
    else .failure 400 "Unsupported operation. Use: sum, product, average"
  | _ => .failure 400 "Numbers must be a non-empty array"

/-- The `calculate` handler body (lines 40–79 of `app.py`) on the decoded
request `data`.  Mirrors the source line by line:
`if not data or 'numbers' not in data` → 400 "Missing numbers array";
`numbers = data['numbers']`; `operation = data.get('operation', 'sum')`;
then `checkAndCompute`.  Any raised exception (a `none` from a dynamic
operation) falls to the `except` clause: 500 "Internal server error". -/
def calcOutcome (data : Json) : Outcome :=
  if truthy data = false then .failure 400 "Missing numbers array"
  else
    match pyContains data "numbers" with
    | none => .failure 500 "Internal server error"
    | some false => .failure 400 "Missing numbers array"
    | some true =>
      match pySubscript data "numbers" with
      | none => .failure 500 "Internal server error"
      | some numbers =>
        match pyGet data "operation" (Json.str "sum") with
        | none => .failure 500 "Internal server error"
        | some operation => checkAndCompute numbers operation

/-- The full handler: render the outcome as an HTTP response.  A success
is status 200 with the result dict; a failure is its status with an
`{'error': ...}` body. -/
def calculate (data : Json) : Resp :=
  match calcOutcome data with
  | .success numbers operation result => ⟨200, okBody numbers operation result⟩
  | .failure status msg => ⟨status, errBody msg⟩

/-- One log record of `logger.info(f"Calculated {operation} for
{numbers}: {result}")`: the operation, the input and the result. -/
abbrev LogEntry : Type := Json × Json × PyNum

/-- The handler together with its only side effect: on success it appends
one record to the log (`logger.info` on line 74); error paths return
without logging a calculation.  The log is the only state the handler
touches; the response is computed from the request alone. -/
def calculateWithLog (data : Json) (log : List LogEntry) : Resp × List LogEntry :=
  match calcOutcome data with
  | .success numbers operation result =>
    (⟨200, okBody numbers operation result⟩, log ++ [(operation, numbers, result)])
  | .failure status msg => (⟨status, errBody msg⟩, log)

/-! ### Shape predicates and spec-side arithmetic measures -/

/-- Is this JSON value a Python `int` (a genuine `int`, not a `bool`)? -/
def Json.isInt : Json → Bool
  | .int _ => true
  | _ => false

/-- Is this JSON value a Python `float`? -/
def Json.isFloat : Json → Bool
  | .float _ => true
  | _ => false

/-- Is this JSON value a string? -/
def Json.isStr : Json → Bool
  | .str _ => true
  | _ => false

/-- Is this JSON value a `list`? -/
def Json.isArr : Json → Bool
  | .arr _ => true
  | _ => false

/-- Is this computed number a `float`? -/
def PyNum.isFloat : PyNum → Bool
  | .float _ => true
  | .int _ => false

/-- The rational value of a numeric JSON element (`0` on non-numeric
values, which the validated paths never contain). -/
def jsonRat (j : Json) : Rat :=
  ((asNum j).map PyNum.toRat).getD 0

/-- The arithmetic sum of the values of a sequence, as a rational: the
spec's "arithmetic sum of all elements". -/
def ratSum (xs : List Json) : Rat :=
  (xs.map jsonRat).sum

/-- The product of the values of a sequence, as a rational. -/
def ratProd (xs : List Json) : Rat :=
  (xs.map jsonRat).prod

/-- Modelled from the spec's words for `product`: "running product
initialized to integer `1`, multiplied by each element in input order" —
a left fold over the values starting at `1`. -/
def specProductFold (xs : List Json) : Rat :=
  xs.foldl (fun acc x => acc * jsonRat x) 1

/-! ### Helper lemmas about the arithmetic layer -/

lemma pyNumAdd_toRat (a b : PyNum) : (pyNumAdd a b).toRat = a.toRat + b.toRat := by
  cases a <;> cases b <;> simp [pyNumAdd, PyNum.toRat]

lemma pyNumMul_toRat (a b : PyNum) : (pyNumMul a b).toRat = a.toRat * b.toRat := by
  cases a <;> cases b <;> simp [pyNumMul, PyNum.toRat]

lemma asNum_of_isNumber {x : Json} (h : isNumber x = true) : ∃ n, asNum x = some n := by
  cases x
  case int n => exact ⟨.int n, rfl⟩
  case float q => exact ⟨.float q, rfl⟩
  case bool b => exact ⟨.int (if b then 1 else 0), rfl⟩
  all_goals simp [isNumber] at h

lemma jsonRat_eq {x : Json} {n : PyNum} (h : asNum x = some n) : jsonRat x = n.toRat := by
  simp [jsonRat, h]

lemma ratSum_nil : ratSum [] = 0 := rfl

lemma ratSum_cons (x : Json) (xs : List Json) : ratSum (x :: xs) = jsonRat x + ratSum xs := by
  simp [ratSum]

lemma ratProd_cons (x : Json) (xs : List Json) : ratProd (x :: xs) = jsonRat x * ratProd xs := by
  simp [ratProd]

/-- On an all-numeric list, the fold of `+` succeeds and its value is the
accumulator plus the arithmetic sum. -/
lemma sumFrom_total {xs : List Json} (h : ∀ x ∈ xs, isNumber x = true) :
    ∀ acc, ∃ s, sumFrom acc xs = some s ∧ s.toRat = acc.toRat + ratSum xs := by
  induction xs with
  | nil => exact fun acc => ⟨acc, rfl, by simp [ratSum]⟩
  | cons x xs ih =>
    intro acc
    obtain ⟨n, hn⟩ := asNum_of_isNumber (h x (by simp))
    obtain ⟨s, hs, hval⟩ := ih (fun y hy => h y (by simp [hy])) (pyNumAdd acc n)
    refine ⟨s, by simp [sumFrom, hn, hs], ?_⟩
    rw [hval, pyNumAdd_toRat, ratSum_cons, jsonRat_eq hn]
    ring

/-- On an all-numeric list, the running product succeeds and its value is
the accumulator times the product of the values. -/
lemma prodFrom_total {xs : List Json} (h : ∀ x ∈ xs, isNumber x = true) :
    ∀ acc, ∃ s, prodFrom acc xs = some s ∧ s.toRat = acc.toRat * ratProd xs := by
  induction xs with
  | nil => exact fun acc => ⟨acc, rfl, by simp [ratProd]⟩
  | cons x xs ih =>
    intro acc
    obtain ⟨n, hn⟩ := asNum_of_isNumber (h x (by simp))
    obtain ⟨s, hs, hval⟩ := ih (fun y hy => h y (by simp [hy])) (pyNumMul acc n)
    refine ⟨s, by simp [prodFrom, hn, hs], ?_⟩
    rw [hval, pyNumMul_toRat, ratProd_cons, jsonRat_eq hn]
    ring

/-- Summing genuine integers from an integer accumulator stays an
integer. -/
lemma sumFrom_allInt {xs : List Json} (h : ∀ x ∈ xs, Json.isInt x = true) :
    ∀ a : Int, ∃ m : Int, sumFrom (.int a) xs = some (.int m) := by
  induction xs with
  | nil => exact fun a => ⟨a, rfl⟩
  | cons x xs ih =>
    intro a
    have hx := h x (by simp)
    cases x
    case int n =>
      obtain ⟨m, hm⟩ := ih (fun y hy => h y (by simp [hy])) (a + n)
      exact ⟨m, by simpa [sumFrom, asNum, pyNumAdd] using hm⟩
    all_goals simp [Json.isInt] at hx

/-- Once the accumulator is a float, the sum stays a float. -/
lemma sumFrom_floatAcc {xs : List Json} (h : ∀ x ∈ xs, isNumber x = true) :
    ∀ q : Rat, ∃ r : Rat, sumFrom (.float q) xs = some (.float r) := by
  induction xs with
  | nil => exact fun q => ⟨q, rfl⟩
  | cons x xs ih =>
    intro q
    obtain ⟨n, hn⟩ := asNum_of_isNumber (h x (by simp))
    have hadd : pyNumAdd (.float q) n = .float (q + n.toRat) := by cases n <;> rfl
    obtain ⟨r, hr⟩ := ih (fun y hy => h y (by simp [hy])) (q + n.toRat)
    exact ⟨r, by simp [sumFrom, hn, hadd, hr]⟩

/-- A float anywhere in an all-numeric list promotes the sum to a
float. -/
lemma sumFrom_hasFloat :
    ∀ (xs : List Json), (∀ x ∈ xs, isNumber x = true) →
      (∃ x ∈ xs, Json.isFloat x = true) →
      ∀ acc, ∃ r : Rat, sumFrom acc xs = some (.float r) := by
  intro xs
  induction xs with
  | nil => intro _ hf; simp at hf
  | cons x xs ih =>
    intro h hf acc
    obtain ⟨n, hn⟩ := asNum_of_isNumber (h x (by simp))
    rcases hf with ⟨y, hy, hyf⟩
    rcases List.mem_cons.mp hy with rfl | hy'
    · cases y
      case float qx =>
        have hadd : pyNumAdd acc (.float qx) = .float (acc.toRat + qx) := by
          cases acc <;> rfl
        obtain ⟨r, hr⟩ :=
          @sumFrom_floatAcc xs (fun z hz => h z (List.mem_cons_of_mem _ hz))
            (acc.toRat + qx)
        refine ⟨r, ?_⟩
        show sumFrom acc (Json.float qx :: xs) = some (PyNum.float r)
        simp [sumFrom, asNum, hadd, hr]
      all_goals simp [Json.isFloat] at hyf
    · obtain ⟨r, hr⟩ :=
        ih (fun z hz => h z (by simp [hz])) ⟨y, hy', hyf⟩ (pyNumAdd acc n)
      exact ⟨r, by simp [sumFrom, hn, hr]⟩

/-- The source's running product equals the spec's left fold from `1`. -/
lemma ratProd_eq_specFold (xs : List Json) : specProductFold xs = ratProd xs := by
  rw [specProductFold, ratProd, List.prod_eq_foldl, List.foldl_map]

/-! ### Helper lemmas about the handler control flow -/

/-- On a dict that has a `numbers` key, the opening checks pass and the
handler proceeds with the stored `numbers` value and the resolved
`operation` (the stored value, or the default `"sum"`). -/
lemma calcOutcome_obj {kvs : List (String × Json)} {v : Json}
    (h : List.lookup "numbers" kvs = some v) :
    calcOutcome (Json.obj kvs) =
      checkAndCompute v ((List.lookup "operation" kvs).getD (Json.str "sum")) := by
  have hne : kvs.isEmpty = false := by
    cases kvs with
    | nil => simp [List.lookup] at h
    | cons a l => rfl
  simp [calcOutcome, truthy, pyContains, pySubscript, pyGet, h, hne]

lemma checkAndCompute_notArr {v op : Json} (h : v.isArr = false) :
    checkAndCompute v op = .failure 400 "Numbers must be a non-empty array" := by
  cases v
  case arr xs => simp [Json.isArr] at h
  all_goals rfl

lemma checkAndCompute_empty (op : Json) :
    checkAndCompute (.arr []) op = .failure 400 "Numbers must be a non-empty array" := rfl

lemma checkAndCompute_nonNumeric {xs : List Json} (hne : xs.isEmpty = false)
    (hbad : xs.all isNumber = false) (op : Json) :
    checkAndCompute (.arr xs) op = .failure 400 "All elements must be numbers" := by
  simp [checkAndCompute, hne, hbad]

lemma checkAndCompute_sum {xs : List Json} {s : PyNum} (hne : xs.isEmpty = false)
    (hnum : xs.all isNumber = true) (hs : pySum xs = some s) :
    checkAndCompute (.arr xs) (.str "sum") = .success (.arr xs) (.str "sum") s := by
  simp [checkAndCompute, hne, hnum, pyEqStr, hs]

lemma checkAndCompute_product {xs : List Json} {p : PyNum} (hne : xs.isEmpty = false)
    (hnum : xs.all isNumber = true) (hp : pyProd xs = some p) :
    checkAndCompute (.arr xs) (.str "product") = .success (.arr xs) (.str "product") p := by
  simp [checkAndCompute, hne, hnum, pyEqStr, hp]

lemma checkAndCompute_average {xs : List Json} {s : PyNum} (hne : xs.isEmpty = false)
    (hnum : xs.all isNumber = true) (hs : pySum xs = some s) :
    checkAndCompute (.arr xs) (.str "average") =
      .success (.arr xs) (.str "average") (.float (s.toRat / (xs.length : Rat))) := by
  simp [checkAndCompute, hne, hnum, pyEqStr, hs]

lemma checkAndCompute_unsupported {xs : List Json} {op : Json} (hne : xs.isEmpty = false)
    (hnum : xs.all isNumber = true) (h1 : pyEqStr op "sum" = false)
    (h2 : pyEqStr op "product" = false) (h3 : pyEqStr op "average" = false) :
    checkAndCompute (.arr xs) op =
      .failure 400 "Unsupported operation. Use: sum, product, average" := by
  simp [checkAndCompute, hne, hnum, h1, h2, h3]

lemma calculate_eq_success {data n o : Json} {r : PyNum}
    (h : calcOutcome data = .success n o r) : calculate data = ⟨200, okBody n o r⟩ := by
  simp [calculate, h]

lemma calculate_eq_failure {data : Json} {st : Nat} {m : String}
    (h : calcOutcome data = .failure st m) : calculate data = ⟨st, errBody m⟩ := by
  simp [calculate, h]

/-! ### The claims -/

/-- C1: For every request object whose `numbers` field is a non-empty
sequence of numeric values and whose operation is `"sum"` (explicitly or
by default), the calculate handler returns status 200 with `result` equal
to the arithmetic sum of the elements; a sum of integers is an integer,
and the presence of any float promotes the result to a float. -/
theorem c1_sum_correct (kvs : List (String × Json)) (xs : List Json)
    (hn : List.lookup "numbers" kvs = some (Json.arr xs))
    (hne : xs.isEmpty = false)
    (hnum : xs.all isNumber = true)
    (hop : List.lookup "operation" kvs = some (Json.str "sum") ∨
      List.lookup "operation" kvs = none) :
    ∃ s, pySum xs = some s ∧
      calculate (Json.obj kvs) = ⟨200, okBody (Json.arr xs) (Json.str "sum") s⟩ ∧
      s.toRat = ratSum xs ∧
      (xs.all Json.isInt = true → ∃ m : Int, s = PyNum.int m) ∧
      (xs.any Json.isFloat = true → ∃ q : Rat, s = PyNum.float q) := by
  have hAll : ∀ x ∈ xs, isNumber x = true := List.all_eq_true.mp hnum
  obtain ⟨s, hs, hval⟩ := sumFrom_total hAll (.int 0)
  have hs' : pySum xs = some s := hs
  have hgetd : (List.lookup "operation" kvs).getD (Json.str "sum") = Json.str "sum" := by
    rcases hop with h | h <;> simp [h]
  have hout : calcOutcome (Json.obj kvs) = .success (Json.arr xs) (Json.str "sum") s := by
    rw [calcOutcome_obj hn, hgetd, checkAndCompute_sum hne hnum hs']
  refine ⟨s, hs', calculate_eq_success hout, by simpa [PyNum.toRat] using hval, ?_, ?_⟩
  · intro hint
    obtain ⟨m, hm⟩ := sumFrom_allInt (List.all_eq_true.mp hint) 0
    exact ⟨m, Option.some.inj (hs'.symm.trans hm)⟩
  · intro hfl
    obtain ⟨r, hr⟩ := sumFrom_hasFloat xs hAll (List.any_eq_true.mp hfl) (.int 0)
    exact ⟨r, Option.some.inj (hs'.symm.trans hr)⟩

theorem c1_sum_correct_witness :
    ∃ s, pySum [Json.int 1, Json.int 2, Json.int 3, Json.int 4, Json.int 5] = some s ∧
      calculate (Json.obj
          [("numbers", Json.arr [Json.int 1, Json.int 2, Json.int 3, Json.int 4, Json.int 5]),
            ("operation", Json.str "sum")]) =
        ⟨200, okBody (Json.arr [Json.int 1, Json.int 2, Json.int 3, Json.int 4, Json.int 5])
          (Json.str "sum") s⟩ ∧
      s.toRat = ratSum [Json.int 1, Json.int 2, Json.int 3, Json.int 4, Json.int 5] ∧
      ([Json.int 1, Json.int 2, Json.int 3, Json.int 4, Json.int 5].all Json.isInt = true →
        ∃ m : Int, s = PyNum.int m) ∧
      ([Json.int 1, Json.int 2, Json.int 3, Json.int 4, Json.int 5].any Json.isFloat = true →
        ∃ q : Rat, s = PyNum.float q) :=
  c1_sum_correct _ _ rfl rfl rfl (Or.inl rfl)

/-- C2: For every request object whose `numbers` field is a non-empty
sequence of numeric values and whose operation is `"product"`, the
calculate handler returns status 200 with `result` equal to the fold that
starts from the integer `1` and multiplies by each element in input
order. -/
theorem c2_product_correct (kvs : List (String × Json)) (xs : List Json)
    (hn : List.lookup "numbers" kvs = some (Json.arr xs))
    (hne : xs.isEmpty = false)
    (hnum : xs.all isNumber = true)
    (hop : List.lookup "operation" kvs = some (Json.str "product")) :
    ∃ p, pyProd xs = some p ∧ pyProd xs = prodFrom (PyNum.int 1) xs ∧
      calculate (Json.obj kvs) = ⟨200, okBody (Json.arr xs) (Json.str "product") p⟩ ∧
      p.toRat = specProductFold xs := by
  have hAll : ∀ x ∈ xs, isNumber x = true := List.all_eq_true.mp hnum
  obtain ⟨p, hp, hval⟩ := prodFrom_total hAll (.int 1)
  have hp' : pyProd xs = some p := hp
  have hgetd : (List.lookup "operation" kvs).getD (Json.str "sum") = Json.str "product" := by
    simp [hop]
  have hout : calcOutcome (Json.obj kvs) = .success (Json.arr xs) (Json.str "product") p := by
    rw [calcOutcome_obj hn, hgetd, checkAndCompute_product hne hnum hp']
  refine ⟨p, hp', rfl, calculate_eq_success hout, ?_⟩
  rw [ratProd_eq_specFold]
  simpa [PyNum.toRat] using hval

theorem c2_product_correct_witness :
    ∃ p, pyProd [Json.int 2, Json.int 3, Json.int 4] = some p ∧
      pyProd [Json.int 2, Json.int 3, Json.int 4] =
        prodFrom (PyNum.int 1) [Json.int 2, Json.int 3, Json.int 4] ∧
      calculate (Json.obj
          [("numbers", Json.arr [Json.int 2, Json.int 3, Json.int 4]),
            ("operation", Json.str "product")]) =
        ⟨200, okBody (Json.arr [Json.int 2, Json.int 3, Json.int 4]) (Json.str "product") p⟩ ∧
      p.toRat = specProductFold [Json.int 2, Json.int 3, Json.int 4] :=
  c2_product_correct _ _ rfl rfl rfl rfl

/-- C3: For every request object whose `numbers` field is a non-empty
sequence of numeric values and whose operation is `"average"`, the
calculate handler returns status 200 with `result` equal to the sum of
the elements divided by their count, and the result is always a
floating-point value (the `PyNum.float` constructor), even when the sum
is evenly divisible by the count. -/
theorem c3_average_correct (kvs : List (String × Json)) (xs : List Json)
    (hn : List.lookup "numbers" kvs = some (Json.arr xs))
    (hne : xs.isEmpty = false)
    (hnum : xs.all isNumber = true)
    (hop : List.lookup "operation" kvs = some (Json.str "average")) :
    ∃ q : Rat, calculate (Json.obj kvs) =
        ⟨200, okBody (Json.arr xs) (Json.str "average") (PyNum.float q)⟩ ∧
      q = ratSum xs / (xs.length : Rat) := by
  obtain ⟨s, hs, hval⟩ := sumFrom_total (List.all_eq_true.mp hnum) (.int 0)
  have hs' : pySum xs = some s := hs
  have hgetd : (List.lookup "operation" kvs).getD (Json.str "sum") = Json.str "average" := by
    simp [hop]
  have hout : calcOutcome (Json.obj kvs) =
      .success (Json.arr xs) (Json.str "average")
        (.float (s.toRat / (xs.length : Rat))) := by
    rw [calcOutcome_obj hn, hgetd, checkAndCompute_average hne hnum hs']
  refine ⟨s.toRat / (xs.length : Rat), calculate_eq_success hout, ?_⟩
  rw [hval]
  simp [PyNum.toRat]

theorem c3_average_correct_witness :
    (∃ q : Rat, calculate (Json.obj
          [("numbers", Json.arr [Json.int 10, Json.int 20, Json.int 30]),
            ("operation", Json.str "average")]) =
        ⟨200, okBody (Json.arr [Json.int 10, Json.int 20, Json.int 30])
          (Json.str "average") (PyNum.float q)⟩ ∧
      q = ratSum [Json.int 10, Json.int 20, Json.int 30] /
        (([Json.int 10, Json.int 20, Json.int 30].length : Nat) : Rat)) ∧
    ratSum [Json.int 10, Json.int 20, Json.int 30] /
        (([Json.int 10, Json.int 20, Json.int 30].length : Nat) : Rat) = (20 : Rat) :=
  ⟨c3_average_correct _ _ rfl rfl rfl rfl,
    by norm_num [ratSum, jsonRat, asNum, PyNum.toRat]⟩

/-- C4 (counterexample): the claim says a boolean element must be
rejected as non-numeric, but Python's `bool` is a subclass of `int`, so
`isinstance(True, (int, float))` is `True`: the request
`{"numbers": [true]}` passes validation and returns status 200 with
result `1`, not the 400 "All elements must be numbers" error. -/
theorem c4_counterexample :
    calculate (Json.obj [("numbers", Json.arr [Json.bool true])]) =
      ⟨200, okBody (Json.arr [Json.bool true]) (Json.str "sum") (PyNum.int 1)⟩ ∧
    (calculate (Json.obj [("numbers", Json.arr [Json.bool true])])).status ≠ 400 :=
  ⟨rfl, by decide⟩

/-- C4 (amended): booleans count as numeric, because Python conflates
`bool` with `int`; for every request object whose `numbers` field is a
non-empty sequence containing at least one element that is not an
integer, a float or a boolean, the handler returns status 400 with error
"All elements must be numbers". -/
theorem c4_amended (kvs : List (String × Json)) (xs : List Json)
    (hn : List.lookup "numbers" kvs = some (Json.arr xs))
    (hne : xs.isEmpty = false)
    (hbad : xs.all isNumber = false) :
    calculate (Json.obj kvs) = ⟨400, errBody "All elements must be numbers"⟩ :=
  calculate_eq_failure
    (by rw [calcOutcome_obj hn]; exact checkAndCompute_nonNumeric hne hbad _)

theorem c4_amended_witness :
    calculate (Json.obj [("numbers", Json.arr [Json.int 1, Json.str "x", Json.int 3])]) =
      ⟨400, errBody "All elements must be numbers"⟩ :=
  c4_amended _ _ rfl rfl rfl

/-- C5 (counterexample): the claim says every input that is not an object
with a `numbers` key yields 400 "Missing numbers array", but for a truthy
non-container input (here the JSON number `1`) the membership test
`'numbers' not in data` raises `TypeError`, which the handler's `except`
clause converts to status 500 "Internal server error". -/
theorem c5_counterexample :
    calculate (Json.int 1) = ⟨500, errBody "Internal server error"⟩ ∧
    (calculate (Json.int 1)).status ≠ 400 :=
  ⟨rfl, by decide⟩

/-- C5 (amended): the handler returns status 400 with error "Missing
numbers array" when the input is falsy (absent body, null, `false`, `0`,
`0.0`, `""`, `[]`, `{}`), an object without the key `numbers`, a string
without the substring `"numbers"`, or an array without the string
element `"numbers"`.  Truthy numeric/boolean inputs and truthy
strings/arrays that do contain `"numbers"` raise instead and return the
500 response, as the counterexample shows. -/
theorem c5_amended (data : Json)
    (h : truthy data = false ∨
      (∃ kvs, data = Json.obj kvs ∧ List.lookup "numbers" kvs = none) ∨
      (∃ s, data = Json.str s ∧ containsSub "numbers".toList s.toList = false) ∨
      (∃ xs, data = Json.arr xs ∧ (xs.any fun x => pyEqStr x "numbers") = false)) :
    calculate data = ⟨400, errBody "Missing numbers array"⟩ := by
  rcases h with h | ⟨kvs, rfl, hk⟩ | ⟨s, rfl, hc⟩ | ⟨xs, rfl, hc⟩
  · exact calculate_eq_failure (by simp [calcOutcome, h])
  · by_cases ht : truthy (Json.obj kvs) = false
    · exact calculate_eq_failure (by simp [calcOutcome, ht])
    · exact calculate_eq_failure (by simp [calcOutcome, ht, pyContains, hk])
  · by_cases ht : truthy (Json.str s) = false
    · exact calculate_eq_failure (by simp [calcOutcome, ht])
    · refine calculate_eq_failure ?_
      have hc' : containsSub ['n', 'u', 'm', 'b', 'e', 'r', 's'] s.data = false := hc
      simp [calcOutcome, ht, pyContains, hc']
  · by_cases ht : truthy (Json.arr xs) = false
    · exact calculate_eq_failure (by simp [calcOutcome, ht])
    · exact calculate_eq_failure (by simp [calcOutcome, ht, pyContains, hc])

theorem c5_amended_witness :
    calculate (Json.obj [("operation", Json.str "sum")]) =
      ⟨400, errBody "Missing numbers array"⟩ ∧
    calculate Json.null = ⟨400, errBody "Missing numbers array"⟩ :=
  ⟨c5_amended _ (Or.inr (Or.inl ⟨_, rfl, rfl⟩)), c5_amended _ (Or.inl rfl)⟩

/-- C6: a request object whose `numbers` value is not a list (a scalar or
an object) or is an empty list gets status 400 with error "Numbers must
be a non-empty array". -/
theorem c6_nonempty_array_check (kvs : List (String × Json)) (v : Json)
    (hn : List.lookup "numbers" kvs = some v)
    (hbad : v.isArr = false ∨ v = Json.arr []) :
    calculate (Json.obj kvs) = ⟨400, errBody "Numbers must be a non-empty array"⟩ := by
  refine calculate_eq_failure ?_
  rw [calcOutcome_obj hn]
  rcases hbad with h | rfl
  · exact checkAndCompute_notArr h
  · exact checkAndCompute_empty _

theorem c6_nonempty_array_check_witness :
    calculate (Json.obj [("numbers", Json.arr []), ("operation", Json.str "sum")]) =
      ⟨400, errBody "Numbers must be a non-empty array"⟩ ∧
    calculate (Json.obj [("numbers", Json.int 5)]) =
      ⟨400, errBody "Numbers must be a non-empty array"⟩ :=
  ⟨c6_nonempty_array_check _ _ rfl (Or.inr rfl),
    c6_nonempty_array_check _ _ rfl (Or.inl rfl)⟩

/-- C7: on a valid non-empty numeric `numbers` sequence, an absent
`operation` resolves to `"sum"` (the handler answers exactly as for
`"sum"`), and a string operation outside {sum, product, average} gets
status 400 with error "Unsupported operation. Use: sum, product,
average". -/
theorem c7_operation_default_and_unsupported (kvs : List (String × Json)) (xs : List Json)
    (hn : List.lookup "numbers" kvs = some (Json.arr xs))
    (hne : xs.isEmpty = false)
    (hnum : xs.all isNumber = true) :
    (List.lookup "operation" kvs = none →
      ∃ s, pySum xs = some s ∧
        calculate (Json.obj kvs) = ⟨200, okBody (Json.arr xs) (Json.str "sum") s⟩) ∧
    (∀ op : String, List.lookup "operation" kvs = some (Json.str op) →
      op ≠ "sum" → op ≠ "product" → op ≠ "average" →
      calculate (Json.obj kvs) =
        ⟨400, errBody "Unsupported operation. Use: sum, product, average"⟩) := by
  constructor
  · intro habs
    obtain ⟨s, hs, -⟩ := sumFrom_total (List.all_eq_true.mp hnum) (.int 0)
    have hs' : pySum xs = some s := hs
    refine ⟨s, hs', calculate_eq_success ?_⟩
    rw [calcOutcome_obj hn]
    simp only [habs, Option.getD_none]
    exact checkAndCompute_sum hne hnum hs'
  · intro op hop h1 h2 h3
    refine calculate_eq_failure ?_
    rw [calcOutcome_obj hn]
    simp only [hop, Option.getD_some]
    exact checkAndCompute_unsupported hne hnum (by simp [pyEqStr, h1])
      (by simp [pyEqStr, h2]) (by simp [pyEqStr, h3])

theorem c7_operation_default_and_unsupported_witness :
    (∃ s, pySum [Json.int 1, Json.int 2, Json.int 3] = some s ∧
      calculate (Json.obj [("numbers", Json.arr [Json.int 1, Json.int 2, Json.int 3])]) =
        ⟨200, okBody (Json.arr [Json.int 1, Json.int 2, Json.int 3]) (Json.str "sum") s⟩) ∧
    calculate (Json.obj [("numbers", Json.arr [Json.int 1, Json.int 2, Json.int 3]),
        ("operation", Json.str "unsupported")]) =
      ⟨400, errBody "Unsupported operation. Use: sum, product, average"⟩ :=
  ⟨(c7_operation_default_and_unsupported
      [("numbers", Json.arr [Json.int 1, Json.int 2, Json.int 3])]
      [Json.int 1, Json.int 2, Json.int 3] rfl rfl rfl).1 rfl,
    (c7_operation_default_and_unsupported
      [("numbers", Json.arr [Json.int 1, Json.int 2, Json.int 3]),
        ("operation", Json.str "unsupported")]
      [Json.int 1, Json.int 2, Json.int 3] rfl rfl rfl).2 "unsupported" rfl
      (by decide) (by decide) (by decide)⟩

/-- C8: the validation checks run in the fixed order (1) `numbers`
present, (2) `numbers` a non-empty list, (3) all elements numeric,
(4) operation supported, and short-circuit: the earliest failing check
determines the response, whatever the later fields hold (the `operation`
value is unconstrained in parts two and three). -/
theorem c8_validation_order :
    (∀ kvs : List (String × Json), List.lookup "numbers" kvs = none →
      calculate (Json.obj kvs) = ⟨400, errBody "Missing numbers array"⟩) ∧
    (∀ (kvs : List (String × Json)) (v : Json), List.lookup "numbers" kvs = some v →
      v.isArr = false ∨ v = Json.arr [] →
      calculate (Json.obj kvs) = ⟨400, errBody "Numbers must be a non-empty array"⟩) ∧
    (∀ (kvs : List (String × Json)) (xs : List Json),
      List.lookup "numbers" kvs = some (Json.arr xs) → xs.isEmpty = false →
      xs.all isNumber = false →
      calculate (Json.obj kvs) = ⟨400, errBody "All elements must be numbers"⟩) := by
  refine ⟨?_, ?_, ?_⟩
  · intro kvs hk
    by_cases ht : truthy (Json.obj kvs) = false
    · exact calculate_eq_failure (by simp [calcOutcome, ht])
    · exact calculate_eq_failure (by simp [calcOutcome, ht, pyContains, hk])
  · intro kvs v hn hbad
    refine calculate_eq_failure ?_
    rw [calcOutcome_obj hn]
    rcases hbad with h | rfl
    · exact checkAndCompute_notArr h
    · exact checkAndCompute_empty _
  · intro kvs xs hn hne hbad
    exact calculate_eq_failure
      (by rw [calcOutcome_obj hn]; exact checkAndCompute_nonNumeric hne hbad _)

theorem c8_validation_order_witness :
    calculate (Json.obj [("operation", Json.str "bogus")]) =
      ⟨400, errBody "Missing numbers array"⟩ ∧
    calculate (Json.obj [("numbers", Json.arr []), ("operation", Json.str "bogus")]) =
      ⟨400, errBody "Numbers must be a non-empty array"⟩ ∧
    calculate (Json.obj [("numbers", Json.arr [Json.str "x"]), ("operation", Json.str "bogus")]) =
      ⟨400, errBody "All elements must be numbers"⟩ :=
  ⟨c8_validation_order.1 _ rfl,
    c8_validation_order.2.1 _ _ rfl (Or.inr rfl),
    c8_validation_order.2.2 _ _ rfl rfl rfl⟩

/-- C9: the handler is deterministic and stateless: the response is a
function of the request body alone — it does not depend on the log, the
only state the handler touches — so two invocations on the identical
request produce identical responses, including an invocation repeated
after the first one has extended the log. -/
theorem c9_deterministic (data : Json) (log1 log2 : List LogEntry) :
    (calculateWithLog data log1).1 = calculate data ∧
    (calculateWithLog data log1).1 = (calculateWithLog data log2).1 ∧
    (calculateWithLog data ((calculateWithLog data log1).2)).1 =
      (calculateWithLog data log1).1 := by
  cases h : calcOutcome data <;> simp [calculateWithLog, calculate, h]

/-- C10: on a valid non-empty numeric `numbers` sequence, a present but
non-string `operation` value (null, number, boolean, array or object)
gets status 400 with the "Unsupported operation" error; in particular an
explicit `operation: null` does not fall back to the default `"sum"`. -/
theorem c10_non_string_operation (kvs : List (String × Json)) (xs : List Json) (v : Json)
    (hn : List.lookup "numbers" kvs = some (Json.arr xs))
    (hne : xs.isEmpty = false)
    (hnum : xs.all isNumber = true)
    (hop : List.lookup "operation" kvs = some v)
    (hstr : v.isStr = false) :
    calculate (Json.obj kvs) =
      ⟨400, errBody "Unsupported operation. Use: sum, product, average"⟩ := by
  refine calculate_eq_failure ?_
  rw [calcOutcome_obj hn]
  simp only [hop, Option.getD_some]
  have hfalse : ∀ lit, pyEqStr v lit = false := by
    intro lit
    cases v
    case str t => simp [Json.isStr] at hstr
    all_goals rfl
  exact checkAndCompute_unsupported hne hnum (hfalse _) (hfalse _) (hfalse _)

theorem c10_non_string_operation_witness :
    calculate (Json.obj [("numbers", Json.arr [Json.int 1]), ("operation", Json.null)]) =
      ⟨400, errBody "Unsupported operation. Use: sum, product, average"⟩ ∧
    calculate (Json.obj [("numbers", Json.arr [Json.int 1]), ("operation", Json.int 7)]) =
      ⟨400, errBody "Unsupported operation. Use: sum, product, average"⟩ :=
  ⟨c10_non_string_operation _ _ _ rfl rfl rfl rfl rfl,
    c10_non_string_operation _ _ _ rfl rfl rfl rfl rfl⟩

end CalcApp
